import Mathlib

/-!
Shallow embedding of the SOLVEM8 server core: the in-memory record store
(`MemStorage`), the Razorpay payment bridge (`PaymentService`), the document
text extractor dispatch (`FileProcessor.extractText`) and the Express route
handlers registered in `registerRoutes` (signup, process, payment initiate,
payment verify).  Records mirror `shared/schema.ts`; machine integers are
modelled as `Int`/`Nat` (no overflow is relevant at these magnitudes);
JavaScript `Map` objects become association lists with last-write-wins `set`;
`Date` values become epoch milliseconds (`Nat`).
-/

set_option maxRecDepth 200000

namespace Solvem8

/-- Association-list model of a JavaScript `Map<number, α>`: `set` replaces an
existing binding in place or appends a fresh one. -/
def setEntry {α : Type} : List (Nat × α) → Nat → α → List (Nat × α)
  | [], k, v => [(k, v)]
  | (k', v') :: rest, k, v =>
      if k' = k then (k, v) :: rest else (k', v') :: setEntry rest k v

/-- Association-list model of `Map.get`. -/
def getEntry {α : Type} : List (Nat × α) → Nat → Option α
  | [], _ => none
  | (k', v') :: rest, k => if k' = k then some v' else getEntry rest k

theorem getEntry_setEntry_self {α : Type} (m : List (Nat × α)) (k : Nat) (v : α) :
    getEntry (setEntry m k v) k = some v := by
  induction m with
  | nil => simp [setEntry, getEntry]
  | cons hd tl ih =>
      obtain ⟨k₀, v₀⟩ := hd
      by_cases h : k₀ = k
      · simp [setEntry, getEntry, h]
      · simpa [setEntry, getEntry, h] using ih

theorem getEntry_setEntry_ne {α : Type} (m : List (Nat × α)) (k k' : Nat) (v : α)
    (h : k' ≠ k) : getEntry (setEntry m k v) k' = getEntry m k' := by
  have h' : ¬ k = k' := fun e => h e.symm
  induction m with
  | nil => simp [setEntry, getEntry, h']
  | cons hd tl ih =>
      obtain ⟨k₀, v₀⟩ := hd
      by_cases hk : k₀ = k
      · subst hk
        simp [setEntry, getEntry, h']
      · by_cases hk' : k₀ = k'
        · simp [setEntry, getEntry, hk, hk', h, h']
        · simpa [setEntry, getEntry, hk, hk'] using ih

theorem mem_setEntry {α : Type} {m : List (Nat × α)} {k : Nat} {v : α} {kv : Nat × α}
    (h : kv ∈ setEntry m k v) : kv = (k, v) ∨ kv ∈ m := by
  induction m with
  | nil => simpa [setEntry] using h
  | cons hd tl ih =>
      obtain ⟨k₀, v₀⟩ := hd
      by_cases hk : k₀ = k
      · rcases (by simpa [setEntry, hk] using h : kv = (k, v) ∨ kv ∈ tl) with h' | h'
        · exact Or.inl h'
        · exact Or.inr (List.mem_cons_of_mem _ h')
      · rcases (by simpa [setEntry, hk] using h :
            kv = (k₀, v₀) ∨ kv ∈ setEntry tl k v) with h' | h'
        · exact Or.inr (by simp [h'])
        · rcases ih h' with h'' | h''
          · exact Or.inl h''
          · exact Or.inr (List.mem_cons_of_mem _ h'')

theorem getEntry_mem {α : Type} {m : List (Nat × α)} {k : Nat} {v : α}
    (h : getEntry m k = some v) : (k, v) ∈ m := by
  induction m with
  | nil => simp [getEntry] at h
  | cons hd tl ih =>
      obtain ⟨k₀, v₀⟩ := hd
      by_cases hk : k₀ = k
      · have hv : v₀ = v := by simpa [getEntry, hk] using h
        subst hk
        subst hv
        exact List.mem_cons_self _ _
      · exact List.mem_cons_of_mem _ (ih (by simpa [getEntry, hk] using h))

/-- `users` row of `shared/schema.ts`: id, username, email, password (stored
hashed), freeAttempts, subscriptionStatus, subscriptionExpiresAt (nullable
timestamp, epoch milliseconds). -/
structure User where
  id : Nat
  username : String
  email : String
  password : String
  freeAttempts : Int
  subscriptionStatus : String
  subscriptionExpiresAt : Option Nat
deriving DecidableEq, Repr

/-- `assignment_history` row of `shared/schema.ts`. -/
structure AssignmentHistory where
  id : Nat
  userId : Nat
  fileName : String
  fileUrl : String
  processedOutputUrl : Option String
  timestamp : Nat
  attemptCount : Int
  extractedText : Option String
  solution : Option String
deriving DecidableEq, Repr

/-- `subscription_payments` row of `shared/schema.ts`.  Fields the in-memory
store never defaults (currency, paymentId, orderId) are optional, as they are
absent when the route omits them. -/
structure SubscriptionPayment where
  id : Nat
  userId : Nat
  amount : Int
  currency : Option String
  paymentId : Option String
  orderId : Option String
  timestamp : Nat
  status : String
  planType : String
deriving DecidableEq, Repr

/-- `InsertUser` (`insertUserSchema` pick of the user columns). -/
structure InsertUser where
  username : String
  email : String
  password : String
  freeAttempts : Int
  subscriptionStatus : String
  subscriptionExpiresAt : Option Nat
deriving DecidableEq, Repr

/-- `InsertAssignmentHistory` (`insertAssignmentHistorySchema` pick). -/
structure InsertAssignmentHistory where
  userId : Nat
  fileName : String
  fileUrl : String
  processedOutputUrl : Option String
  attemptCount : Int
  extractedText : Option String
  solution : Option String
deriving DecidableEq, Repr

/-- `InsertSubscriptionPayment` (`insertSubscriptionPaymentSchema` pick). -/
structure InsertSubscriptionPayment where
  userId : Nat
  amount : Int
  currency : Option String
  paymentId : Option String
  orderId : Option String
  status : String
  planType : String
deriving DecidableEq, Repr

/-- `Partial<User>` as used by the route handlers (`{...user, ...updates}`
merge): a `none` field is an absent key and leaves the stored value intact. -/
structure UserUpdate where
  freeAttempts : Option Int
  subscriptionStatus : Option String
  subscriptionExpiresAt : Option (Option Nat)
deriving DecidableEq, Repr

/-- `Partial<SubscriptionPayment>` as used by the verify handler. -/
structure PaymentUpdate where
  status : Option String
  paymentId : Option (Option String)
deriving DecidableEq, Repr

/-- Spread merge `{...user, ...updates}`. -/
def applyUserUpdate (u : User) (upd : UserUpdate) : User :=
  { u with
    freeAttempts := upd.freeAttempts.getD u.freeAttempts
    subscriptionStatus := upd.subscriptionStatus.getD u.subscriptionStatus
    subscriptionExpiresAt := upd.subscriptionExpiresAt.getD u.subscriptionExpiresAt }

/-- Spread merge `{...payment, ...updates}`. -/
def applyPaymentUpdate (p : SubscriptionPayment) (upd : PaymentUpdate) : SubscriptionPayment :=
  { p with
    status := upd.status.getD p.status
    paymentId := upd.paymentId.getD p.paymentId }

/-- `MemStorage` of `server/storage.ts`: one `Map` per record kind plus the
three auto-increment counters, each starting at 1. -/
structure MemStorage where
  usersData : List (Nat × User)
  assignmentsData : List (Nat × AssignmentHistory)
  paymentsData : List (Nat × SubscriptionPayment)
  currentUserId : Nat
  currentAssignmentId : Nat
  currentPaymentId : Nat
deriving DecidableEq, Repr

/-- `new MemStorage()`. -/
def MemStorage.empty : MemStorage := ⟨[], [], [], 1, 1, 1⟩

/-- `MemStorage.getUser`. -/
def MemStorage.getUser (st : MemStorage) (id : Nat) : Option User :=
  getEntry st.usersData id

/-- `MemStorage.getUserByUsername` (case-insensitive linear scan). -/
def MemStorage.getUserByUsername (st : MemStorage) (username : String) : Option User :=
  (st.usersData.map Prod.snd).find?
    (fun u => u.username.toLower == username.toLower)

/-- `MemStorage.getUserByEmail` (case-insensitive linear scan). -/
def MemStorage.getUserByEmail (st : MemStorage) (email : String) : Option User :=
  (st.usersData.map Prod.snd).find?
    (fun u => u.email.toLower == email.toLower)

/-- `MemStorage.createUser`: assigns the next id, hashes the password (bcrypt
is an external library, so the hash is a function parameter), and forces
`freeAttempts := 3`, `subscriptionStatus := "free"` over whatever the insert
carried, exactly as the object spread in the source does. -/
def MemStorage.createUser (hash : String → String) (st : MemStorage)
    (iu : InsertUser) : User × MemStorage :=
  let id := st.currentUserId
  let user : User :=
    ⟨id, iu.username, iu.email, hash iu.password, 3, "free", iu.subscriptionExpiresAt⟩
  (user, { st with
            usersData := setEntry st.usersData id user
            currentUserId := id + 1 })

/-- `MemStorage.updateUser`. -/
def MemStorage.updateUser (st : MemStorage) (id : Nat) (upd : UserUpdate) :
    Option User × MemStorage :=
  match getEntry st.usersData id with
  | none => (none, st)
  | some u =>
      let u' := applyUserUpdate u upd
      (some u', { st with usersData := setEntry st.usersData id u' })

/-- `MemStorage.getAssignment`. -/
def MemStorage.getAssignment (st : MemStorage) (id : Nat) : Option AssignmentHistory :=
  getEntry st.assignmentsData id

/-- `MemStorage.createAssignment`: next id plus server-assigned timestamp. -/
def MemStorage.createAssignment (st : MemStorage) (ia : InsertAssignmentHistory)
    (now : Nat) : AssignmentHistory × MemStorage :=
  let id := st.currentAssignmentId
  let a : AssignmentHistory :=
    ⟨id, ia.userId, ia.fileName, ia.fileUrl, ia.processedOutputUrl, now,
     ia.attemptCount, ia.extractedText, ia.solution⟩
  (a, { st with
         assignmentsData := setEntry st.assignmentsData id a
         currentAssignmentId := id + 1 })

/-- `MemStorage.createPayment`: next id plus server-assigned timestamp. -/
def MemStorage.createPayment (st : MemStorage) (ip : InsertSubscriptionPayment)
    (now : Nat) : SubscriptionPayment × MemStorage :=
  let id := st.currentPaymentId
  let p : SubscriptionPayment :=
    ⟨id, ip.userId, ip.amount, ip.currency, ip.paymentId, ip.orderId, now,
     ip.status, ip.planType⟩
  (p, { st with
         paymentsData := setEntry st.paymentsData id p
         currentPaymentId := id + 1 })

/-- `MemStorage.getPaymentByOrderId` (linear scan on the stored order id). -/
def MemStorage.getPaymentByOrderId (st : MemStorage) (orderId : String) :
    Option SubscriptionPayment :=
  (st.paymentsData.map Prod.snd).find? (fun p => p.orderId == some orderId)

/-- `MemStorage.updatePayment`. -/
def MemStorage.updatePayment (st : MemStorage) (id : Nat) (upd : PaymentUpdate) :
    Option SubscriptionPayment × MemStorage :=
  match getEntry st.paymentsData id with
  | none => (none, st)
  | some p =>
      let p' := applyPaymentUpdate p upd
      (some p', { st with paymentsData := setEntry st.paymentsData id p' })

/-! ### Payment bridge (`server/services/payment.ts`)

`crypto.createHmac('sha256', secret).update(body).digest('hex')` calls into
Node's crypto library, which is not part of this repository.  Modelled from
the spec: HMAC-SHA256 (FIPS 198 over FIPS 180-4 SHA-256) with lowercase hex
digest; strings are taken as their byte sequences (UTF-8, which coincides
with the code-point map on the ASCII inputs in scope). -/

/-- Truncate to a 32-bit word. -/
def w32 (n : Nat) : Nat := n % 4294967296

/-- 32-bit rotate right. -/
def rotr (b n : Nat) : Nat := w32 ((n >>> b) ||| (n <<< (32 - b)))

/-- SHA-256 round constants. -/
def kTable : List Nat :=
  [1116352408, 1899447441, 3049323471, 3921009573, 961987163, 1508970993,
   2453635748, 2870763221, 3624381080, 310598401, 607225278, 1426881987,
   1925078388, 2162078206, 2614888103, 3248222580, 3835390401, 4022224774,
   264347078, 604807628, 770255983, 1249150122, 1555081692, 1996064986,
   2554220882, 2821834349, 2952996808, 3210313671, 3336571891, 3584528711,
   113926993, 338241895, 666307205, 773529912, 1294757372, 1396182291,
   1695183700, 1986661051, 2177026350, 2456956037, 2730485921, 2820302411,
   3259730800, 3345764771, 3516065817, 3600352804, 4094571909, 275423344,
   430227734, 506948616, 659060556, 883997877, 958139571, 1322822218,
   1537002063, 1747873779, 1955562222, 2024104815, 2227730452, 2361852424,
   2428436474, 2756734187, 3204031479, 3329325298]

/-- SHA-256 working state, eight 32-bit words. -/
structure Hash8 where
  a : Nat
  b : Nat
  c : Nat
  d : Nat
  e : Nat
  f : Nat
  g : Nat
  h : Nat
deriving DecidableEq, Repr

/-- SHA-256 initial hash value. -/
def initHash : Hash8 :=
  ⟨1779033703, 3144134277, 1013904242, 2773480762,
   1359893119, 2600822924, 528734635, 1541459225⟩

/-- Big-endian bytes of `n`, `c` bytes wide. -/
def beBytes : Nat → Nat → List Nat
  | 0, _ => []
  | c + 1, n => (n >>> (8 * c)) % 256 :: beBytes c n

/-- SHA-256 message padding: append `0x80`, zero fill, then the 64-bit
big-endian bit length, reaching a multiple of 64 bytes. -/
def padMessage (msg : List Nat) : List Nat :=
  let padLen := (64 - ((msg.length + 9) % 64)) % 64
  msg ++ 128 :: List.replicate padLen 0 ++ beBytes 8 (msg.length * 8)

/-- Group bytes into big-endian 32-bit words. -/
def toWords : List Nat → List Nat
  | a :: b :: c :: d :: rest =>
      (a * 16777216 + b * 65536 + c * 256 + d) :: toWords rest
  | _ => []

/-- Group words into 16-word blocks. -/
def toBlocks : List Nat → List (List Nat)
  | w0 :: w1 :: w2 :: w3 :: w4 :: w5 :: w6 :: w7 ::
    w8 :: w9 :: w10 :: w11 :: w12 :: w13 :: w14 :: w15 :: rest =>
      [w0, w1, w2, w3, w4, w5, w6, w7, w8, w9, w10, w11, w12, w13, w14, w15]
        :: toBlocks rest
  | _ => []

/-- One step of the SHA-256 message-schedule extension. -/
def scheduleStep (ws : List Nat) : List Nat :=
  let l := ws.length
  let x15 := ws.getD (l - 15) 0
  let x2 := ws.getD (l - 2) 0
  let s0 := (rotr 7 x15) ^^^ (rotr 18 x15) ^^^ (x15 >>> 3)
  let s1 := (rotr 17 x2) ^^^ (rotr 19 x2) ^^^ (x2 >>> 10)
  ws ++ [w32 (ws.getD (l - 16) 0 + s0 + ws.getD (l - 7) 0 + s1)]

/-- Extend a 16-word block to the 64-word schedule. -/
def fullSchedule (block : List Nat) : List Nat :=
  (List.range 48).foldl (fun ws _ => scheduleStep ws) block

/-- One SHA-256 compression round. -/
def roundStep (st : Hash8) (wk : Nat × Nat) : Hash8 :=
  let s1 := (rotr 6 st.e) ^^^ (rotr 11 st.e) ^^^ (rotr 25 st.e)
  let ch := (st.e &&& st.f) ^^^ ((st.e ^^^ 4294967295) &&& st.g)
  let t1 := w32 (st.h + s1 + ch + wk.2 + wk.1)
  let s0 := (rotr 2 st.a) ^^^ (rotr 13 st.a) ^^^ (rotr 22 st.a)
  let mj := (st.a &&& st.b) ^^^ (st.a &&& st.c) ^^^ (st.b &&& st.c)
  let t2 := w32 (s0 + mj)
  ⟨w32 (t1 + t2), st.a, st.b, st.c, w32 (st.d + t1), st.e, st.f, st.g⟩

/-- SHA-256 compression of one block into the running hash. -/
def compress (hv : Hash8) (block : List Nat) : Hash8 :=
  let ws := fullSchedule block
  let r := (ws.zip kTable).foldl roundStep hv
  ⟨w32 (hv.a + r.a), w32 (hv.b + r.b), w32 (hv.c + r.c), w32 (hv.d + r.d),
   w32 (hv.e + r.e), w32 (hv.f + r.f), w32 (hv.g + r.g), w32 (hv.h + r.h)⟩

/-- SHA-256 digest of a byte list, as 32 bytes. -/
def sha256 (msg : List Nat) : List Nat :=
  let final := (toBlocks (toWords (padMessage msg))).foldl compress initHash
  beBytes 4 final.a ++ beBytes 4 final.b ++ beBytes 4 final.c ++ beBytes 4 final.d ++
  beBytes 4 final.e ++ beBytes 4 final.f ++ beBytes 4 final.g ++ beBytes 4 final.h

/-- Bytes of a string (code points; equals UTF-8 on the ASCII data in scope). -/
def strBytes (s : String) : List Nat := s.data.map Char.toNat

/-- Lowercase hex digit. -/
def hexDigit (n : Nat) : Char := if n < 10 then Char.ofNat (48 + n) else Char.ofNat (87 + n)

/-- Lowercase hex string of a byte list. -/
def hexStr (bs : List Nat) : String :=
  String.mk (bs.foldr (fun b acc => hexDigit (b / 16 % 16) :: hexDigit (b % 16) :: acc) [])

/-- HMAC-SHA256 with hex digest, as `crypto.createHmac('sha256', key)` over a
string body produces.  Keys longer than the 64-byte block are first hashed. -/
def hmacSha256Hex (key : String) (body : String) : String :=
  let kb := strBytes key
  let kb := if kb.length > 64 then sha256 kb else kb
  let k0 := kb ++ List.replicate (64 - kb.length) 0
  let ipad := k0.map (fun b => b ^^^ 54)
  let opad := k0.map (fun b => b ^^^ 92)
  hexStr (sha256 (opad ++ sha256 (ipad ++ strBytes body)))

/-- `PaymentService.verifyPayment`: with a missing or `'dummy_secret'` secret
(the default when `RAZORPAY_KEY_SECRET` is unset) it short-circuits to `true`;
otherwise it recomputes the HMAC of `orderId + '|' + paymentId` and compares
with `===`. -/
def verifyPayment (secret : String) (orderId paymentId signature : String) : Bool :=
  if secret = "" ∨ secret = "dummy_secret" then
    true
  else
    hmacSha256Hex secret (orderId ++ "|" ++ paymentId) == signature

/-! ### Document text extractor (`FileProcessor.extractText`)

The four per-format strategies are library calls (pdf.js-extract, docx-parser,
xlsx, tesseract.js), so each is a parameter producing a result together with
the number of temporary-file writes it performed; the dispatch and the
try/catch wrapper are translated from the source. -/

deriving instance DecidableEq for Except

/-- Outcome of one extraction strategy: extracted text or an error, plus how
many temporary files the strategy wrote. -/
abbrev StrategyOutcome := Except String String × Nat

/-- Caller-visible outcome of `extractText`. -/
structure ExtractResult where
  result : Except String String
  tempWrites : Nat
deriving DecidableEq, Repr

/-- DOCX media type. -/
def wordMime : String :=
  "application/vnd.openxmlformats-officedocument.wordprocessingml.document"

/-- Spreadsheet media type. -/
def sheetMime : String :=
  "application/vnd.openxmlformats-officedocument.spreadsheetml.sheet"

/-- The `switch (mimeType)` body of `FileProcessor.extractText`: dispatch to a
strategy for the five supported media types, throw `Unsupported file type`
otherwise without invoking any strategy. -/
def extractTextSwitch (pdf docx excel image : List Nat → StrategyOutcome)
    (buffer : List Nat) (mimeType : String) : StrategyOutcome :=
  if mimeType = "application/pdf" then pdf buffer
  else if mimeType = wordMime then docx buffer
  else if mimeType = sheetMime then excel buffer
  else if mimeType = "image/jpeg" ∨ mimeType = "image/png" then image buffer
  else (Except.error ("Unsupported file type: " ++ mimeType), 0)

/-- `FileProcessor.extractText`: the switch runs inside a try/catch whose
catch logs the original error and re-throws the generic
`Failed to extract text from file`. -/
def extractText (pdf docx excel image : List Nat → StrategyOutcome)
    (buffer : List Nat) (mimeType : String) : ExtractResult :=
  match extractTextSwitch pdf docx excel image buffer mimeType with
  | (Except.ok t, n) => ⟨Except.ok t, n⟩
  | (Except.error _, n) => ⟨Except.error "Failed to extract text from file", n⟩

/-! ### Route handlers (`registerRoutes` in `server/routes.ts`)

The session is a `userId` argument, `Date` values are epoch milliseconds
passed as `now`, and the external collaborators (bcrypt, zod validation, the
AI completion endpoint, the payment gateway order id) are parameters. -/

/-- `expiryDate.setDate(expiryDate.getDate() + 30)` as epoch milliseconds. -/
def thirtyDaysMs : Nat := 30 * 86400000

/-- Result of `POST /api/auth/signup`. -/
structure SignupResult where
  status : Nat
  userId : Option Nat
  st : MemStorage
deriving DecidableEq, Repr

/-- Result of `POST /api/process`.  `aiCalled` records whether
`aiService.processAssignment` was invoked on this request. -/
structure ProcessResult where
  status : Nat
  st : MemStorage
  aiCalled : Bool
deriving DecidableEq, Repr

/-- Result of `POST /api/payment/initiate`. -/
structure InitiateResult where
  status : Nat
  st : MemStorage
deriving DecidableEq, Repr

/-- Result of `POST /api/payment/verify`. -/
structure VerifyResult where
  status : Nat
  st : MemStorage
deriving DecidableEq, Repr

/-- `POST /api/auth/signup`: zod validation (external, a predicate parameter),
duplicate email then duplicate username checks, then `createUser` with
`freeAttempts: 3`, `subscriptionStatus: 'free'`. -/
def apiAuthSignup (hash : String → String)
    (validate : String → String → String → Bool) (st : MemStorage)
    (username email password : String) : SignupResult :=
  if validate username email password = false then ⟨400, none, st⟩
  else
    match st.getUserByEmail email with
    | some _ => ⟨409, none, st⟩
    | none =>
        match st.getUserByUsername username with
        | some _ => ⟨409, none, st⟩
        | none =>
            let r := MemStorage.createUser hash st
              ⟨username, email, password, 3, "free", none⟩
            ⟨201, some r.1.id, r.2⟩

/-- `POST /api/process`: reject empty text (400), unknown user (404); block
with 403 when the subscription is `free` and no attempts remain; otherwise run
the AI generator, record the assignment, and decrement the counter
(`Math.max(0, freeAttempts - 1)`) exactly when the subscription is `free`. -/
def apiProcess (ai : String → String) (st : MemStorage) (userId : Nat)
    (text : String) (fileUrl : Option String) (now : Nat) : ProcessResult :=
  if text = "" then ⟨400, st, false⟩
  else
    match st.getUser userId with
    | none => ⟨404, st, false⟩
    | some user =>
        if user.subscriptionStatus = "free" ∧ user.freeAttempts ≤ 0 then
          ⟨403, st, false⟩
        else
          let solution := ai text
          let fileName :=
            match fileUrl with
            | some u => if u = "" then "Text Input" else (u.splitOn "/").getLastD ""
            | none => "Text Input"
          let st1 := (MemStorage.createAssignment st
            ⟨userId, fileName, fileUrl.getD "", none, 1, some text, some solution⟩ now).2
          let st2 :=
            if user.subscriptionStatus = "free" then
              (MemStorage.updateUser st1 userId
                ⟨some (max 0 (user.freeAttempts - 1)), none, none⟩).2
            else st1
          ⟨200, st2, true⟩

/-- `POST /api/payment/initiate`: validate the plan, look up the user, create
the gateway order (external; its id is the `gatewayOrderId` parameter) and
store a pending payment — the route passes no currency and no payment id. -/
def apiPaymentInitiate (st : MemStorage) (userId : Nat) (plan : String)
    (gatewayOrderId : String) (now : Nat) : InitiateResult :=
  if ¬ (plan = "monthly" ∨ plan = "pack") then ⟨400, st⟩
  else
    match st.getUser userId with
    | none => ⟨404, st⟩
    | some _ =>
        let amount : Int := if plan = "monthly" then 19900 else 29900
        let st1 := (MemStorage.createPayment st
          ⟨userId, amount, none, none, some gatewayOrderId, "pending", plan⟩ now).2
        ⟨200, st1⟩

/-- `POST /api/payment/verify`: check the gateway signature, find the payment
by order id, mark it completed, then apply the plan benefit to the session
user: `monthly` activates the subscription for 30 days, `pack` adds 20
attempts to the current counter. -/
def apiPaymentVerify (secret : String) (st : MemStorage) (userId : Nat)
    (orderId paymentId signature : String) (now : Nat) : VerifyResult :=
  if verifyPayment secret orderId paymentId signature then
    match st.getPaymentByOrderId orderId with
    | none => ⟨404, st⟩
    | some payment =>
        let st1 := (MemStorage.updatePayment st payment.id
          ⟨some "completed", some (some paymentId)⟩).2
        match st1.getUser userId with
        | none => ⟨404, st1⟩
        | some user =>
            if payment.planType = "monthly" then
              ⟨200, (MemStorage.updateUser st1 userId
                ⟨none, some "active", some (some (now + thirtyDaysMs))⟩).2⟩
            else if payment.planType = "pack" then
              ⟨200, (MemStorage.updateUser st1 userId
                ⟨some (user.freeAttempts + 20), none, none⟩).2⟩
            else ⟨200, st1⟩
  else ⟨400, st⟩

/-! ### Sequences of state-changing requests -/

/-- One inbound state-changing request. -/
inductive Op where
  | signup (username email password : String)
  | process (userId : Nat) (text : String) (fileUrl : Option String) (now : Nat)
  | initiate (userId : Nat) (plan : String) (gatewayOrderId : String) (now : Nat)
  | verify (userId : Nat) (orderId paymentId signature : String) (now : Nat)
deriving DecidableEq, Repr

/-- Whether an operation is a payment verification. -/
def Op.isVerify : Op → Bool
  | .verify _ _ _ _ _ => true
  | _ => false

/-- State after handling one request. -/
def applyOp (hash : String → String) (validate : String → String → String → Bool)
    (ai : String → String) (secret : String) (st : MemStorage) : Op → MemStorage
  | .signup u e p => (apiAuthSignup hash validate st u e p).st
  | .process uid t f now => (apiProcess ai st uid t f now).st
  | .initiate uid plan oid now => (apiPaymentInitiate st uid plan oid now).st
  | .verify uid oid pid sig now => (apiPaymentVerify secret st uid oid pid sig now).st

/-- State after handling a sequence of requests. -/
def applyOps (hash : String → String) (validate : String → String → String → Bool)
    (ai : String → String) (secret : String) (st : MemStorage) (ops : List Op) :
    MemStorage :=
  ops.foldl (applyOp hash validate ai secret) st

/-! ### Storage facts used by the handler proofs -/

theorem usersData_createAssignment (st : MemStorage) (ia : InsertAssignmentHistory)
    (now : Nat) : (MemStorage.createAssignment st ia now).2.usersData = st.usersData := rfl

theorem usersData_createPayment (st : MemStorage) (ip : InsertSubscriptionPayment)
    (now : Nat) : (MemStorage.createPayment st ip now).2.usersData = st.usersData := rfl

theorem usersData_updatePayment (st : MemStorage) (id : Nat) (upd : PaymentUpdate) :
    (MemStorage.updatePayment st id upd).2.usersData = st.usersData := by
  cases hg : getEntry st.paymentsData id <;> simp [MemStorage.updatePayment, hg]

theorem getUser_updatePayment (st : MemStorage) (id : Nat) (upd : PaymentUpdate)
    (id' : Nat) : (MemStorage.updatePayment st id upd).2.getUser id' = st.getUser id' := by
  simp [MemStorage.getUser, usersData_updatePayment]

theorem getUser_updateUser_self (st : MemStorage) (id : Nat) (u : User)
    (upd : UserUpdate) (hu : st.getUser id = some u) :
    (MemStorage.updateUser st id upd).2.getUser id = some (applyUserUpdate u upd) := by
  simp only [MemStorage.getUser] at hu
  simp [MemStorage.updateUser, hu, MemStorage.getUser, getEntry_setEntry_self]

theorem getUser_updateUser_ne (st : MemStorage) (id id' : Nat) (upd : UserUpdate)
    (h : id' ≠ id) :
    (MemStorage.updateUser st id upd).2.getUser id' = st.getUser id' := by
  cases hg : getEntry st.usersData id <;>
    simp [MemStorage.updateUser, hg, MemStorage.getUser, getEntry_setEntry_ne _ _ _ _ h]

/-! ### Concrete fixtures for the closed instances -/

/-- Stand-in for the external bcrypt hash in closed instances. -/
def demoHash (s : String) : String := "h:" ++ s

/-- Stand-in for the external AI completion service in closed instances. -/
def demoAi (t : String) : String := "solution of " ++ t

/-- Stand-in for the zod request validation in closed instances. -/
def demoValidate (username email password : String) : Bool :=
  username.length ≥ 2 ∧ email.length ≥ 3 ∧ password.length ≥ 8

/-- A free-plan account with no attempts left. -/
def annUser : User := ⟨1, "ann", "ann@example.com", "h:pw123456", 0, "free", none⟩

/-- A store holding only `annUser`. -/
def stAnn : MemStorage := ⟨[(1, annUser)], [], [], 2, 1, 1⟩

/-- A free-plan account with three attempts left. -/
def beaUser : User := ⟨1, "bea", "bea@example.com", "h:pw123456", 3, "free", none⟩

/-- A store holding only `beaUser`. -/
def stBea : MemStorage := ⟨[(1, beaUser)], [], [], 2, 1, 1⟩

/-! ### Claims about the process gate -/

/-- C1: a process request by a `free` account with a non-positive attempt
counter is rejected with 403, the AI generator is not invoked, and the stored
state is returned unchanged (in particular no SolveRecord is created). -/
theorem process_quota_exhausted_blocks (ai : String → String) (st : MemStorage)
    (userId : Nat) (text : String) (fileUrl : Option String) (now : Nat) (u : User)
    (hu : st.getUser userId = some u) (hfree : u.subscriptionStatus = "free")
    (hzero : u.freeAttempts ≤ 0) (htext : text ≠ "") :
    apiProcess ai st userId text fileUrl now = ⟨403, st, false⟩ := by
  simp [apiProcess, htext, hu, hfree, hzero]

/-- Closed instance of `process_quota_exhausted_blocks` at a store holding one
free account with 0 attempts. -/
theorem process_quota_exhausted_blocks_witness :
    apiProcess demoAi stAnn 1 "solve q1" none 17 = ⟨403, stAnn, false⟩ :=
  process_quota_exhausted_blocks demoAi stAnn 1 "solve q1" none 17 annUser
    (by decide) (by decide) (by decide) (by decide)

/-- C4: on a successful generation the counter drops by exactly one — the
`Math.max` floor is inert because the gate guarantees a positive counter —
if the subscription is `free`; an `active` account is never blocked and its
stored record is unchanged, whatever its counter holds. -/
theorem process_decrement_iff_free (ai : String → String) (st : MemStorage)
    (userId : Nat) (text : String) (fileUrl : Option String) (now : Nat) (u : User)
    (hu : st.getUser userId = some u) (htext : text ≠ "") :
    (u.subscriptionStatus = "free" → 0 < u.freeAttempts →
        (apiProcess ai st userId text fileUrl now).status = 200 ∧
        (apiProcess ai st userId text fileUrl now).aiCalled = true ∧
        (apiProcess ai st userId text fileUrl now).st.getUser userId =
          some { u with freeAttempts := u.freeAttempts - 1 } ∧
        max 0 (u.freeAttempts - 1) = u.freeAttempts - 1) ∧
    (u.subscriptionStatus = "active" →
        (apiProcess ai st userId text fileUrl now).status = 200 ∧
        (apiProcess ai st userId text fileUrl now).aiCalled = true ∧
        (apiProcess ai st userId text fileUrl now).st.getUser userId = some u) := by
  constructor
  · intro hfree hpos
    have hmax : max 0 (u.freeAttempts - 1) = u.freeAttempts - 1 := by omega
    have hnb : ¬ (u.subscriptionStatus = "free" ∧ u.freeAttempts ≤ 0) := by
      simp [hfree]; omega
    have hget : ∀ ia, (MemStorage.createAssignment st ia now).2.getUser userId = some u := by
      intro ia
      simpa [MemStorage.getUser, usersData_createAssignment] using hu
    have hposne : ¬ u.freeAttempts ≤ 0 := by omega
    simp only [apiProcess, htext, hu, if_neg htext, hnb, if_false, hfree, if_true]
    simp [hnb, hfree, hposne, hmax]
    rw [getUser_updateUser_self _ _ u _ (hget _)]
    simp [applyUserUpdate, hfree]
  · intro hact
    have hna : ¬ (u.subscriptionStatus = "free" ∧ u.freeAttempts ≤ 0) := by
      simp [hact]
    have hnf : ¬ u.subscriptionStatus = "free" := by simp [hact]
    have hget : ∀ ia, (MemStorage.createAssignment st ia now).2.getUser userId = some u := by
      intro ia
      simpa [MemStorage.getUser, usersData_createAssignment] using hu
    simp [apiProcess, htext, hu, hna, hnf, hget]

/-- Closed instance of `process_decrement_iff_free` at a free account holding
three attempts: a successful request leaves it with two. -/
theorem process_decrement_iff_free_witness :
    (apiProcess demoAi stBea 1 "solve q2" none 23).status = 200 ∧
    (apiProcess demoAi stBea 1 "solve q2" none 23).aiCalled = true ∧
    (apiProcess demoAi stBea 1 "solve q2" none 23).st.getUser 1 =
      some { beaUser with freeAttempts := beaUser.freeAttempts - 1 } ∧
    max 0 (beaUser.freeAttempts - 1) = beaUser.freeAttempts - 1 :=
  (process_decrement_iff_free demoAi stBea 1 "solve q2" none 23 beaUser
    (by decide) (by decide)).1 (by decide) (by decide)

/-! ### The success paths of the verify handler -/

theorem apiPaymentVerify_pack_spec (secret : String) (st : MemStorage)
    (userId : Nat) (orderId paymentId signature : String) (now : Nat)
    (pay : SubscriptionPayment) (u : User)
    (hsig : verifyPayment secret orderId paymentId signature = true)
    (hpay : st.getPaymentByOrderId orderId = some pay)
    (hplan : pay.planType = "pack")
    (hu : st.getUser userId = some u) :
    (apiPaymentVerify secret st userId orderId paymentId signature now).status = 200 ∧
    (apiPaymentVerify secret st userId orderId paymentId signature now).st.getUser userId
      = some { u with freeAttempts := u.freeAttempts + 20 } ∧
    (∀ id', id' ≠ userId →
      (apiPaymentVerify secret st userId orderId paymentId signature now).st.getUser id'
        = st.getUser id') := by
  have hu1 : (MemStorage.updatePayment st pay.id
      ⟨some "completed", some (some paymentId)⟩).2.getUser userId = some u := by
    rw [getUser_updatePayment]; exact hu
  have heq : apiPaymentVerify secret st userId orderId paymentId signature now =
      ⟨200, (MemStorage.updateUser (MemStorage.updatePayment st pay.id
          ⟨some "completed", some (some paymentId)⟩).2 userId
          ⟨some (u.freeAttempts + 20), none, none⟩).2⟩ := by
    simp [apiPaymentVerify, hsig, hpay, hu1, hplan]
  refine ⟨by rw [heq], ?_, ?_⟩
  · rw [heq]
    rw [show (VerifyResult.mk 200 _).st = _ from rfl,
        getUser_updateUser_self _ _ u _ hu1]
    simp [applyUserUpdate]
  · intro id' hne
    rw [heq]
    rw [show (VerifyResult.mk 200 _).st = _ from rfl,
        getUser_updateUser_ne _ _ _ _ hne, getUser_updatePayment]

theorem apiPaymentVerify_monthly_spec (secret : String) (st : MemStorage)
    (userId : Nat) (orderId paymentId signature : String) (now : Nat)
    (pay : SubscriptionPayment) (u : User)
    (hsig : verifyPayment secret orderId paymentId signature = true)
    (hpay : st.getPaymentByOrderId orderId = some pay)
    (hplan : pay.planType = "monthly")
    (hu : st.getUser userId = some u) :
    (apiPaymentVerify secret st userId orderId paymentId signature now).status = 200 ∧
    (apiPaymentVerify secret st userId orderId paymentId signature now).st.getUser userId
      = some { u with subscriptionStatus := "active",
                      subscriptionExpiresAt := some (now + thirtyDaysMs) } ∧
    (∀ id', id' ≠ userId →
      (apiPaymentVerify secret st userId orderId paymentId signature now).st.getUser id'
        = st.getUser id') := by
  have hu1 : (MemStorage.updatePayment st pay.id
      ⟨some "completed", some (some paymentId)⟩).2.getUser userId = some u := by
    rw [getUser_updatePayment]; exact hu
  have heq : apiPaymentVerify secret st userId orderId paymentId signature now =
      ⟨200, (MemStorage.updateUser (MemStorage.updatePayment st pay.id
          ⟨some "completed", some (some paymentId)⟩).2 userId
          ⟨none, some "active", some (some (now + thirtyDaysMs))⟩).2⟩ := by
    simp [apiPaymentVerify, hsig, hpay, hu1, hplan]
  refine ⟨by rw [heq], ?_, ?_⟩
  · rw [heq]
    rw [show (VerifyResult.mk 200 _).st = _ from rfl,
        getUser_updateUser_self _ _ u _ hu1]
    simp [applyUserUpdate]
  · intro id' hne
    rw [heq]
    rw [show (VerifyResult.mk 200 _).st = _ from rfl,
        getUser_updateUser_ne _ _ _ _ hne, getUser_updatePayment]

/-! ### Fixtures for the payment claims -/

/-- A free-plan account with two attempts left. -/
def cidUser : User := ⟨1, "cid", "cid@example.com", "h:pw123456", 2, "free", none⟩

/-- A second free-plan account with seven attempts left. -/
def dotUser : User := ⟨2, "dot", "dot@example.com", "h:pw123456", 7, "free", none⟩

/-- A pending pack payment owned by account 2. -/
def packPayment : SubscriptionPayment :=
  ⟨1, 2, 29900, none, none, some "order_9", 5, "pending", "pack"⟩

/-- A pending monthly payment owned by account 1. -/
def monthlyPayment : SubscriptionPayment :=
  ⟨2, 1, 19900, none, none, some "order_10", 5, "pending", "monthly"⟩

/-- A pack payment already marked completed, owned by account 1. -/
def completedPackPayment : SubscriptionPayment :=
  ⟨3, 1, 29900, none, some "pay_1", some "order_11", 5, "completed", "pack"⟩

/-- A store with the two accounts and the three payments above. -/
def stShop : MemStorage :=
  ⟨[(1, cidUser), (2, dotUser)], [],
   [(1, packPayment), (2, monthlyPayment), (3, completedPackPayment)], 3, 1, 4⟩

/-! ### Claims about payment verification effects -/

/-- C5: a verified pack payment adds exactly 20 to the session account's
attempt counter, for every prior value, and the pack branch changes no other
field of that account record. -/
theorem verify_pack_adds_twenty (secret : String) (st : MemStorage)
    (userId : Nat) (orderId paymentId signature : String) (now : Nat)
    (pay : SubscriptionPayment) (u : User)
    (hsig : verifyPayment secret orderId paymentId signature = true)
    (hpay : st.getPaymentByOrderId orderId = some pay)
    (hplan : pay.planType = "pack")
    (hu : st.getUser userId = some u) :
    (apiPaymentVerify secret st userId orderId paymentId signature now).status = 200 ∧
    (apiPaymentVerify secret st userId orderId paymentId signature now).st.getUser userId
      = some { u with freeAttempts := u.freeAttempts + 20 } :=
  ⟨(apiPaymentVerify_pack_spec secret st userId orderId paymentId signature now pay u
      hsig hpay hplan hu).1,
   (apiPaymentVerify_pack_spec secret st userId orderId paymentId signature now pay u
      hsig hpay hplan hu).2.1⟩

/-- Closed instance of `verify_pack_adds_twenty`: account 1 goes from 2 to 22
attempts. -/
theorem verify_pack_adds_twenty_witness :
    (apiPaymentVerify "dummy_secret" stShop 1 "order_9" "pay_7" "sig" 50).status = 200 ∧
    (apiPaymentVerify "dummy_secret" stShop 1 "order_9" "pay_7" "sig" 50).st.getUser 1
      = some { cidUser with freeAttempts := cidUser.freeAttempts + 20 } :=
  verify_pack_adds_twenty "dummy_secret" stShop 1 "order_9" "pay_7" "sig" 50
    packPayment cidUser (by decide) (by decide) (by decide) (by decide)

/-- C6: a verified monthly payment sets the session account's subscription
state to `active` and its expiry to exactly 30 days after the verification
time. -/
theorem verify_monthly_activates (secret : String) (st : MemStorage)
    (userId : Nat) (orderId paymentId signature : String) (now : Nat)
    (pay : SubscriptionPayment) (u : User)
    (hsig : verifyPayment secret orderId paymentId signature = true)
    (hpay : st.getPaymentByOrderId orderId = some pay)
    (hplan : pay.planType = "monthly")
    (hu : st.getUser userId = some u) :
    (apiPaymentVerify secret st userId orderId paymentId signature now).status = 200 ∧
    (apiPaymentVerify secret st userId orderId paymentId signature now).st.getUser userId
      = some { u with subscriptionStatus := "active",
                      subscriptionExpiresAt := some (now + thirtyDaysMs) } :=
  ⟨(apiPaymentVerify_monthly_spec secret st userId orderId paymentId signature now pay u
      hsig hpay hplan hu).1,
   (apiPaymentVerify_monthly_spec secret st userId orderId paymentId signature now pay u
      hsig hpay hplan hu).2.1⟩

/-- Closed instance of `verify_monthly_activates` at verification time 50. -/
theorem verify_monthly_activates_witness :
    (apiPaymentVerify "dummy_secret" stShop 1 "order_10" "pay_8" "sig" 50).status = 200 ∧
    (apiPaymentVerify "dummy_secret" stShop 1 "order_10" "pay_8" "sig" 50).st.getUser 1
      = some { cidUser with subscriptionStatus := "active",
                            subscriptionExpiresAt := some (50 + thirtyDaysMs) } :=
  verify_monthly_activates "dummy_secret" stShop 1 "order_10" "pay_8" "sig" 50
    monthlyPayment cidUser (by decide) (by decide) (by decide) (by decide)

/-- C9: verification is not idempotent — even when the stored pack payment is
already `completed`, a verify request for its order id with an accepted
signature succeeds again and adds a further 20 attempts; no hypothesis on the
stored status is needed because the handler never inspects it. -/
theorem verify_completed_pack_pays_again (secret : String) (st : MemStorage)
    (userId : Nat) (orderId paymentId signature : String) (now : Nat)
    (pay : SubscriptionPayment) (u : User)
    (hsig : verifyPayment secret orderId paymentId signature = true)
    (hpay : st.getPaymentByOrderId orderId = some pay)
    (hplan : pay.planType = "pack")
    (_hstatus : pay.status = "completed")
    (hu : st.getUser userId = some u) :
    (apiPaymentVerify secret st userId orderId paymentId signature now).status = 200 ∧
    (apiPaymentVerify secret st userId orderId paymentId signature now).st.getUser userId
      = some { u with freeAttempts := u.freeAttempts + 20 } :=
  ⟨(apiPaymentVerify_pack_spec secret st userId orderId paymentId signature now pay u
      hsig hpay hplan hu).1,
   (apiPaymentVerify_pack_spec secret st userId orderId paymentId signature now pay u
      hsig hpay hplan hu).2.1⟩

/-- Closed instance of `verify_completed_pack_pays_again`: the already
completed `order_11` still credits 20 more attempts to account 1. -/
theorem verify_completed_pack_pays_again_witness :
    (apiPaymentVerify "dummy_secret" stShop 1 "order_11" "pay_9" "sig" 60).status = 200 ∧
    (apiPaymentVerify "dummy_secret" stShop 1 "order_11" "pay_9" "sig" 60).st.getUser 1
      = some { cidUser with freeAttempts := cidUser.freeAttempts + 20 } :=
  verify_completed_pack_pays_again "dummy_secret" stShop 1 "order_11" "pay_9" "sig" 60
    completedPackPayment cidUser (by decide) (by decide) (by decide) (by decide)
    (by decide)

/-- C10: the verify handler applies the plan benefit to the account in the
session, not to the account owning the payment record: when the two differ,
the session account is updated (pack credit or monthly activation) and the
owner's record is untouched. -/
theorem verify_credits_session_not_owner (secret : String) (st : MemStorage)
    (userId : Nat) (orderId paymentId signature : String) (now : Nat)
    (pay : SubscriptionPayment) (u w : User)
    (hsig : verifyPayment secret orderId paymentId signature = true)
    (hpay : st.getPaymentByOrderId orderId = some pay)
    (hu : st.getUser userId = some u)
    (hw : st.getUser pay.userId = some w)
    (hne : userId ≠ pay.userId) :
    (pay.planType = "pack" →
      (apiPaymentVerify secret st userId orderId paymentId signature now).status = 200 ∧
      (apiPaymentVerify secret st userId orderId paymentId signature now).st.getUser userId
        = some { u with freeAttempts := u.freeAttempts + 20 } ∧
      (apiPaymentVerify secret st userId orderId paymentId signature now).st.getUser pay.userId
        = some w) ∧
    (pay.planType = "monthly" →
      (apiPaymentVerify secret st userId orderId paymentId signature now).status = 200 ∧
      (apiPaymentVerify secret st userId orderId paymentId signature now).st.getUser userId
        = some { u with subscriptionStatus := "active",
                        subscriptionExpiresAt := some (now + thirtyDaysMs) } ∧
      (apiPaymentVerify secret st userId orderId paymentId signature now).st.getUser pay.userId
        = some w) := by
  constructor
  · intro hplan
    obtain ⟨h1, h2, h3⟩ := apiPaymentVerify_pack_spec secret st userId orderId
      paymentId signature now pay u hsig hpay hplan hu
    exact ⟨h1, h2, by rw [h3 pay.userId (Ne.symm hne)]; exact hw⟩
  · intro hplan
    obtain ⟨h1, h2, h3⟩ := apiPaymentVerify_monthly_spec secret st userId orderId
      paymentId signature now pay u hsig hpay hplan hu
    exact ⟨h1, h2, by rw [h3 pay.userId (Ne.symm hne)]; exact hw⟩

/-- Closed instance of `verify_credits_session_not_owner`: `order_9` is owned
by account 2, yet verifying it in account 1's session credits account 1 and
leaves account 2 exactly as stored. -/
theorem verify_credits_session_not_owner_witness :
    (apiPaymentVerify "dummy_secret" stShop 1 "order_9" "pay_7" "sig" 50).status = 200 ∧
    (apiPaymentVerify "dummy_secret" stShop 1 "order_9" "pay_7" "sig" 50).st.getUser 1
      = some { cidUser with freeAttempts := cidUser.freeAttempts + 20 } ∧
    (apiPaymentVerify "dummy_secret" stShop 1 "order_9" "pay_7" "sig" 50).st.getUser
      packPayment.userId = some dotUser :=
  (verify_credits_session_not_owner "dummy_secret" stShop 1 "order_9" "pay_7" "sig" 50
    packPayment cidUser dotUser (by decide) (by decide) (by decide) (by decide)
    (by decide)).1 (by decide)

/-! ### Counter invariants across request sequences -/

/-- Every stored account has a non-negative attempt counter. -/
def NonNegAttempts (st : MemStorage) : Prop :=
  ∀ kv ∈ st.usersData, 0 ≤ (Prod.snd kv).freeAttempts

/-- Every stored account key is below the auto-increment cursor (true of every
state `MemStorage` can reach, since ids are handed out by the cursor). -/
def UsersWF (st : MemStorage) : Prop :=
  ∀ kv ∈ st.usersData, Prod.fst kv < st.currentUserId

theorem signup_users_cases (hash : String → String)
    (validate : String → String → String → Bool) (st : MemStorage)
    (username email password : String) :
    ((apiAuthSignup hash validate st username email password).st.usersData = st.usersData ∧
     (apiAuthSignup hash validate st username email password).st.currentUserId =
       st.currentUserId) ∨
    (∃ nu : User, nu.freeAttempts = 3 ∧
      (apiAuthSignup hash validate st username email password).st.usersData =
        setEntry st.usersData st.currentUserId nu ∧
      (apiAuthSignup hash validate st username email password).st.currentUserId =
        st.currentUserId + 1) := by
  unfold apiAuthSignup
  split
  · exact Or.inl ⟨rfl, rfl⟩
  · split
    · exact Or.inl ⟨rfl, rfl⟩
    · split
      · exact Or.inl ⟨rfl, rfl⟩
      · exact Or.inr ⟨_, rfl, rfl, rfl⟩

theorem process_users_cases (ai : String → String) (st : MemStorage) (userId : Nat)
    (text : String) (fileUrl : Option String) (now : Nat) :
    ((apiProcess ai st userId text fileUrl now).st.usersData = st.usersData ∧
     (apiProcess ai st userId text fileUrl now).st.currentUserId = st.currentUserId) ∨
    (∃ u : User, getEntry st.usersData userId = some u ∧
      u.subscriptionStatus = "free" ∧ 0 < u.freeAttempts ∧
      (apiProcess ai st userId text fileUrl now).st.usersData =
        setEntry st.usersData userId
          { u with freeAttempts := max 0 (u.freeAttempts - 1) } ∧
      (apiProcess ai st userId text fileUrl now).st.currentUserId = st.currentUserId) := by
  unfold apiProcess
  split
  · exact Or.inl ⟨rfl, rfl⟩
  · rename_i htext
    cases hu : st.getUser userId with
    | none => simp [hu]
    | some u =>
        have hu' : getEntry st.usersData userId = some u := hu
        simp only [hu]
        by_cases hblock : u.subscriptionStatus = "free" ∧ u.freeAttempts ≤ 0
        · simp [hblock]
        · simp only [hblock, if_false]
          by_cases hfree : u.subscriptionStatus = "free"
          · have hpos : 0 < u.freeAttempts := by
              rcases not_and_or.mp hblock with h | h
              · exact absurd hfree h
              · omega
            right
            refine ⟨u, hu', hfree, hpos, ?_, ?_⟩ <;>
              simp [hfree, MemStorage.updateUser, MemStorage.createAssignment,
                MemStorage.getUser, hu', applyUserUpdate]
          · left
            simp [hfree, MemStorage.createAssignment]

theorem initiate_users_cases (st : MemStorage) (userId : Nat) (plan : String)
    (gatewayOrderId : String) (now : Nat) :
    (apiPaymentInitiate st userId plan gatewayOrderId now).st.usersData = st.usersData ∧
    (apiPaymentInitiate st userId plan gatewayOrderId now).st.currentUserId =
      st.currentUserId := by
  unfold apiPaymentInitiate
  split
  · exact ⟨rfl, rfl⟩
  · split
    · exact ⟨rfl, rfl⟩
    · exact ⟨rfl, rfl⟩

theorem verify_users_cases (secret : String) (st : MemStorage) (userId : Nat)
    (orderId paymentId signature : String) (now : Nat) :
    ((apiPaymentVerify secret st userId orderId paymentId signature now).st.usersData =
       st.usersData ∧
     (apiPaymentVerify secret st userId orderId paymentId signature now).st.currentUserId =
       st.currentUserId) ∨
    (∃ uo u' : User, getEntry st.usersData userId = some uo ∧
      uo.freeAttempts ≤ u'.freeAttempts ∧
      (apiPaymentVerify secret st userId orderId paymentId signature now).st.usersData =
        setEntry st.usersData userId u' ∧
      (apiPaymentVerify secret st userId orderId paymentId signature now).st.currentUserId =
        st.currentUserId) := by
  unfold apiPaymentVerify
  split
  · rename_i hsig
    cases hpay : st.getPaymentByOrderId orderId with
    | none => simp [hpay]
    | some pay =>
        simp only [hpay]
        have hud : (MemStorage.updatePayment st pay.id
            ⟨some "completed", some (some paymentId)⟩).2.usersData = st.usersData :=
          usersData_updatePayment st pay.id _
        have hcu : (MemStorage.updatePayment st pay.id
            ⟨some "completed", some (some paymentId)⟩).2.currentUserId =
            st.currentUserId := by
          cases hg : getEntry st.paymentsData pay.id <;>
            simp [MemStorage.updatePayment, hg]
        cases hu : (MemStorage.updatePayment st pay.id
            ⟨some "completed", some (some paymentId)⟩).2.getUser userId with
        | none => simp [hu, hud, hcu]
        | some uo =>
            have huo : getEntry st.usersData userId = some uo := by
              rw [getUser_updatePayment] at hu
              exact hu
            simp only [hu]
            by_cases hm : pay.planType = "monthly"
            · right
              refine ⟨uo, applyUserUpdate uo ⟨none, some "active",
                some (some (now + thirtyDaysMs))⟩, huo, le_of_eq rfl, ?_, ?_⟩ <;>
                simp [hm, MemStorage.updateUser, hu, huo, MemStorage.getUser, hud,
                  hcu, applyUserUpdate]
            · by_cases hp : pay.planType = "pack"
              · right
                refine ⟨uo, applyUserUpdate uo ⟨some (uo.freeAttempts + 20), none,
                  none⟩, huo, by simp [applyUserUpdate], ?_, ?_⟩ <;>
                  simp [hm, hp, MemStorage.updateUser, hu, huo, MemStorage.getUser,
                    hud, hcu, applyUserUpdate]
              · left
                simp [hm, hp, hud, hcu]
  · exact Or.inl ⟨rfl, rfl⟩

theorem wf_applyOp (hash : String → String)
    (validate : String → String → String → Bool) (ai : String → String)
    (secret : String) (st : MemStorage) (op : Op) (hwf : UsersWF st) :
    UsersWF (applyOp hash validate ai secret st op) := by
  cases op with
  | signup username email password =>
      rcases signup_users_cases hash validate st username email password with
        ⟨h1, h2⟩ | ⟨nu, _, h1, h2⟩
      · intro kv hkv
        rw [applyOp] at hkv ⊢
        rw [h2]
        exact hwf kv (h1 ▸ hkv)
      · intro kv hkv
        rw [applyOp] at hkv ⊢
        rw [h1] at hkv
        rw [h2]
        rcases mem_setEntry hkv with h | h
        · subst h; simp
        · have := hwf kv h; omega
  | process userId text fileUrl now =>
      rcases process_users_cases ai st userId text fileUrl now with
        ⟨h1, h2⟩ | ⟨u, hu, _, _, h1, h2⟩
      · intro kv hkv
        rw [applyOp] at hkv ⊢
        rw [h2]
        exact hwf kv (h1 ▸ hkv)
      · intro kv hkv
        rw [applyOp] at hkv ⊢
        rw [h1] at hkv
        rw [h2]
        rcases mem_setEntry hkv with h | h
        · subst h
          simpa using hwf _ (getEntry_mem hu)
        · exact hwf kv h
  | initiate userId plan gatewayOrderId now =>
      obtain ⟨h1, h2⟩ := initiate_users_cases st userId plan gatewayOrderId now
      intro kv hkv
      rw [applyOp] at hkv ⊢
      rw [h2]
      exact hwf kv (h1 ▸ hkv)
  | verify userId orderId paymentId signature now =>
      rcases verify_users_cases secret st userId orderId paymentId signature now with
        ⟨h1, h2⟩ | ⟨uo, u', huo, _, h1, h2⟩
      · intro kv hkv
        rw [applyOp] at hkv ⊢
        rw [h2]
        exact hwf kv (h1 ▸ hkv)
      · intro kv hkv
        rw [applyOp] at hkv ⊢
        rw [h1] at hkv
        rw [h2]
        rcases mem_setEntry hkv with h | h
        · subst h
          simpa using hwf _ (getEntry_mem huo)
        · exact hwf kv h

theorem nonneg_applyOp (hash : String → String)
    (validate : String → String → String → Bool) (ai : String → String)
    (secret : String) (st : MemStorage) (op : Op) (hnn : NonNegAttempts st) :
    NonNegAttempts (applyOp hash validate ai secret st op) := by
  cases op with
  | signup username email password =>
      rcases signup_users_cases hash validate st username email password with
        ⟨h1, _⟩ | ⟨nu, hnu, h1, _⟩
      · intro kv hkv
        rw [applyOp] at hkv
        exact hnn kv (h1 ▸ hkv)
      · intro kv hkv
        rw [applyOp] at hkv
        rw [h1] at hkv
        rcases mem_setEntry hkv with h | h
        · subst h; simp [hnu]
        · exact hnn kv h
  | process userId text fileUrl now =>
      rcases process_users_cases ai st userId text fileUrl now with
        ⟨h1, _⟩ | ⟨u, _, _, _, h1, _⟩
      · intro kv hkv
        rw [applyOp] at hkv
        exact hnn kv (h1 ▸ hkv)
      · intro kv hkv
        rw [applyOp] at hkv
        rw [h1] at hkv
        rcases mem_setEntry hkv with h | h
        · subst h
          simp
        · exact hnn kv h
  | initiate userId plan gatewayOrderId now =>
      obtain ⟨h1, _⟩ := initiate_users_cases st userId plan gatewayOrderId now
      intro kv hkv
      rw [applyOp] at hkv
      exact hnn kv (h1 ▸ hkv)
  | verify userId orderId paymentId signature now =>
      rcases verify_users_cases secret st userId orderId paymentId signature now with
        ⟨h1, _⟩ | ⟨uo, u', huo, hle, h1, _⟩
      · intro kv hkv
        rw [applyOp] at hkv
        exact hnn kv (h1 ▸ hkv)
      · intro kv hkv
        rw [applyOp] at hkv
        rw [h1] at hkv
        rcases mem_setEntry hkv with h | h
        · subst h
          have h0 : 0 ≤ uo.freeAttempts := hnn _ (getEntry_mem huo)
          show 0 ≤ u'.freeAttempts
          omega
        · exact hnn kv h

theorem mono_applyOp (hash : String → String)
    (validate : String → String → String → Bool) (ai : String → String)
    (secret : String) (st : MemStorage) (op : Op) (uid : Nat) (u : User)
    (hwf : UsersWF st) (hnv : op.isVerify = false)
    (hu : getEntry st.usersData uid = some u) :
    ∃ u', getEntry (applyOp hash validate ai secret st op).usersData uid = some u' ∧
      u'.freeAttempts ≤ u.freeAttempts := by
  cases op with
  | signup username email password =>
      rcases signup_users_cases hash validate st username email password with
        ⟨h1, _⟩ | ⟨nu, _, h1, _⟩
      · rw [applyOp, h1]
        exact ⟨u, hu, le_refl _⟩
      · have hlt : uid < st.currentUserId := hwf _ (getEntry_mem hu)
        rw [applyOp, h1, getEntry_setEntry_ne _ _ _ _ (by omega)]
        exact ⟨u, hu, le_refl _⟩
  | process userId text fileUrl now =>
      rcases process_users_cases ai st userId text fileUrl now with
        ⟨h1, _⟩ | ⟨uo, huo, _, hpos, h1, _⟩
      · rw [applyOp, h1]
        exact ⟨u, hu, le_refl _⟩
      · by_cases heq : uid = userId
        · subst heq
          have : uo = u := by rw [hu] at huo; exact (Option.some.inj huo).symm
          subst this
          rw [applyOp, h1, getEntry_setEntry_self]
          exact ⟨_, rfl, by simp only; omega⟩
        · rw [applyOp, h1, getEntry_setEntry_ne _ _ _ _ heq]
          exact ⟨u, hu, le_refl _⟩
  | initiate userId plan gatewayOrderId now =>
      obtain ⟨h1, _⟩ := initiate_users_cases st userId plan gatewayOrderId now
      rw [applyOp, h1]
      exact ⟨u, hu, le_refl _⟩
  | verify userId orderId paymentId signature now =>
      simp [Op.isVerify] at hnv

/-- State after a request sequence splits as a head step then the rest. -/
theorem applyOps_cons (hash : String → String)
    (validate : String → String → String → Bool) (ai : String → String)
    (secret : String) (st : MemStorage) (op : Op) (ops : List Op) :
    applyOps hash validate ai secret st (op :: ops) =
      applyOps hash validate ai secret (applyOp hash validate ai secret st op) ops := rfl

/-- C3 (amended): across every request sequence the attempt counter of every
stored account stays non-negative; and across every sequence containing no
payment verification, each pre-existing account's counter is monotonically
non-increasing.  (A verified pack payment strictly increases the counter of a
still-`free` account, so the monotone part cannot include verifications; see
the counterexample.) -/
theorem attempts_nonneg_and_mono (hash : String → String)
    (validate : String → String → String → Bool) (ai : String → String)
    (secret : String) (ops : List Op) (st : MemStorage)
    (hwf : UsersWF st) (hnn : NonNegAttempts st) :
    NonNegAttempts (applyOps hash validate ai secret st ops) ∧
    (∀ uid u, MemStorage.getUser st uid = some u →
      (∀ op ∈ ops, op.isVerify = false) →
      ∃ u', MemStorage.getUser (applyOps hash validate ai secret st ops) uid = some u' ∧
        u'.freeAttempts ≤ u.freeAttempts ∧ 0 ≤ u'.freeAttempts) := by
  induction ops generalizing st with
  | nil =>
      refine ⟨hnn, ?_⟩
      intro uid u hu _
      exact ⟨u, hu, le_refl _, hnn _ (getEntry_mem hu)⟩
  | cons op ops ih =>
      have hwf' := wf_applyOp hash validate ai secret st op hwf
      have hnn' := nonneg_applyOp hash validate ai secret st op hnn
      obtain ⟨H1, H2⟩ := ih (applyOp hash validate ai secret st op) hwf' hnn'
      rw [applyOps_cons]
      refine ⟨H1, ?_⟩
      intro uid u hu hno
      obtain ⟨u1, hu1, hle1⟩ := mono_applyOp hash validate ai secret st op uid u hwf
        (hno op (List.mem_cons_self _ _)) hu
      obtain ⟨u2, hu2, hle2, hge⟩ := H2 uid u1 hu1
        (fun o ho => hno o (List.mem_cons_of_mem _ ho))
      exact ⟨u2, hu2, le_trans hle2 hle1, hge⟩

/-- The request sequence refuting monotonicity under verifications: register,
initiate a pack purchase, verify it (the default dummy secret accepts any
signature). -/
def cexOps : List Op :=
  [Op.signup "eve" "eve@mail.io" "password1",
   Op.initiate 1 "pack" "order_c" 0,
   Op.verify 1 "order_c" "pay_c" "sig" 0]

/-- C3 is false as stated: registration leaves account 1 at (3, `free`), and
after a pack payment verification the same still-`free` account holds 23 > 3
attempts, so the counter is not non-increasing while the state is `free`. -/
theorem attempts_mono_counterexample :
    (MemStorage.getUser (applyOps demoHash demoValidate demoAi "dummy_secret"
        MemStorage.empty [Op.signup "eve" "eve@mail.io" "password1"]) 1).map
      (fun u => (u.freeAttempts, u.subscriptionStatus)) = some (3, "free") ∧
    (MemStorage.getUser (applyOps demoHash demoValidate demoAi "dummy_secret"
        MemStorage.empty cexOps) 1).map
      (fun u => (u.freeAttempts, u.subscriptionStatus)) = some (23, "free") ∧
    ¬ ((23 : Int) ≤ 3) := by
  refine ⟨by decide, by decide, by decide⟩

/-- Closed instance of `attempts_nonneg_and_mono` on a store with one free
account holding three attempts: after one solve request every counter is
still non-negative and account 1 did not gain attempts. -/
theorem attempts_nonneg_and_mono_witness :
    NonNegAttempts (applyOps demoHash demoValidate demoAi "dummy_secret" stBea
      [Op.process 1 "solve q3" none 9]) :=
  (attempts_nonneg_and_mono demoHash demoValidate demoAi "dummy_secret"
    [Op.process 1 "solve q3" none 9] stBea
    (by intro kv hkv; fin_cases hkv; decide)
    (by intro kv hkv; fin_cases hkv; decide)).1

/-! ### Claims about signature verification -/

/-- Changing one character of a string to a different character yields a
different string. -/
theorem mutate_ne (cs : List Char) (i : Nat) (c : Char) (h : i < cs.length)
    (hc : c ≠ cs.get ⟨i, h⟩) : String.mk (cs.set i c) ≠ String.mk cs := by
  intro he
  have hdata : cs.set i c = cs := by simpa using congrArg String.data he
  have h1 : (cs.set i c)[i]? = some c := List.getElem?_set_self h
  rw [hdata, List.getElem?_eq_getElem h] at h1
  exact hc (Option.some.inj h1).symm

/-- C2 (amended): when a real secret is configured (nonempty and distinct
from the `dummy_secret` default), verification accepts a signature exactly
when it equals the recomputed HMAC-SHA256 hex of `orderId|paymentId`, and any
single-character mutation of the valid signature is rejected.  (With the
default secret the code short-circuits to acceptance; see the
counterexample.) -/
theorem verifyPayment_iff_hmac (secret o p : String)
    (h1 : secret ≠ "") (h2 : secret ≠ "dummy_secret") :
    (∀ sig, verifyPayment secret o p sig = true ↔
      sig = hmacSha256Hex secret (o ++ "|" ++ p)) ∧
    (∀ (i : Nat) (c : Char)
      (hi : i < (hmacSha256Hex secret (o ++ "|" ++ p)).data.length),
      c ≠ (hmacSha256Hex secret (o ++ "|" ++ p)).data.get ⟨i, hi⟩ →
      verifyPayment secret o p
        (String.mk ((hmacSha256Hex secret (o ++ "|" ++ p)).data.set i c)) = false) := by
  constructor
  · intro sig
    have hif : verifyPayment secret o p sig =
        (hmacSha256Hex secret (o ++ "|" ++ p) == sig) := by
      simp [verifyPayment, h1, h2]
    rw [hif, beq_iff_eq]
    exact eq_comm
  · intro i c hi hc
    have hne := mutate_ne ((hmacSha256Hex secret (o ++ "|" ++ p)).data) i c hi hc
    have hif : verifyPayment secret o p
        (String.mk ((hmacSha256Hex secret (o ++ "|" ++ p)).data.set i c)) =
        (hmacSha256Hex secret (o ++ "|" ++ p) ==
          String.mk ((hmacSha256Hex secret (o ++ "|" ++ p)).data.set i c)) := by
      simp [verifyPayment, h1, h2]
    rw [hif]
    exact beq_eq_false_iff_ne.mpr (Ne.symm hne)

/-- C2 is false as stated: under the default configuration the secret is the
`dummy_secret` placeholder and the verifier accepts the signature `"0"`,
which is not the recomputed HMAC of `o1|p1`. -/
theorem verifyPayment_dummy_counterexample :
    verifyPayment "dummy_secret" "o1" "p1" "0" = true ∧
    "0" ≠ hmacSha256Hex "dummy_secret" ("o1" ++ "|" ++ "p1") := by
  exact ⟨by decide, by decide⟩

/-- Closed instance of `verifyPayment_iff_hmac` with secret `x`: the exact
HMAC of `o1|p1` is accepted and the same value with its first character
changed to `z` is rejected. -/
theorem verifyPayment_iff_hmac_witness :
    verifyPayment "x" "o1" "p1" (hmacSha256Hex "x" ("o1" ++ "|" ++ "p1")) = true ∧
    verifyPayment "x" "o1" "p1"
      (String.mk ((hmacSha256Hex "x" ("o1" ++ "|" ++ "p1")).data.set 0 'z')) = false :=
  ⟨((verifyPayment_iff_hmac "x" "o1" "p1" (by decide) (by decide)).1 _).mpr rfl,
   (verifyPayment_iff_hmac "x" "o1" "p1" (by decide) (by decide)).2 0 'z'
     (by decide) (by decide)⟩

/-! ### Claims about the extractor and the store round-trip -/

/-- Strategy stub for closed extractor instances. -/
def demoStrategy : List Nat → StrategyOutcome := fun _ => (Except.ok "text", 0)

/-- C7 (amended): for a media type outside the supported set the switch fails
immediately with the `Unsupported file type` condition, no strategy runs and
no temporary storage is touched — but the surrounding catch re-raises the
failure as the generic `Failed to extract text from file` condition, which is
what the caller observes. -/
theorem extractText_unsupported (pdf docx excel image : List Nat → StrategyOutcome)
    (buffer : List Nat) (mimeType : String)
    (h1 : mimeType ≠ "application/pdf") (h2 : mimeType ≠ wordMime)
    (h3 : mimeType ≠ sheetMime) (h4 : mimeType ≠ "image/jpeg")
    (h5 : mimeType ≠ "image/png") :
    extractTextSwitch pdf docx excel image buffer mimeType =
      (Except.error ("Unsupported file type: " ++ mimeType), 0) ∧
    extractText pdf docx excel image buffer mimeType =
      ⟨Except.error "Failed to extract text from file", 0⟩ := by
  have hsw : extractTextSwitch pdf docx excel image buffer mimeType =
      (Except.error ("Unsupported file type: " ++ mimeType), 0) := by
    simp [extractTextSwitch, h1, h2, h3, h4, h5]
  exact ⟨hsw, by simp [extractText, hsw]⟩

/-- C7 is false as stated: for `text/plain` the caller-visible failure is the
generic extraction-failure condition, not the unsupported-media-type one
(which is only the internal, logged error); temporary storage is untouched. -/
theorem extractText_unsupported_counterexample :
    (extractText demoStrategy demoStrategy demoStrategy demoStrategy [] "text/plain").result
      = Except.error "Failed to extract text from file" ∧
    (Except.error "Failed to extract text from file" : Except String String)
      ≠ Except.error "Unsupported file type: text/plain" ∧
    (extractText demoStrategy demoStrategy demoStrategy demoStrategy []
      "text/plain").tempWrites = 0 := by
  exact ⟨by decide, by decide, by decide⟩

/-- Closed instance of `extractText_unsupported` at `text/plain`. -/
theorem extractText_unsupported_witness :
    extractTextSwitch demoStrategy demoStrategy demoStrategy demoStrategy [] "text/plain"
      = (Except.error ("Unsupported file type: " ++ "text/plain"), 0) ∧
    extractText demoStrategy demoStrategy demoStrategy demoStrategy [] "text/plain"
      = ⟨Except.error "Failed to extract text from file", 0⟩ :=
  extractText_unsupported demoStrategy demoStrategy demoStrategy demoStrategy []
    "text/plain" (by decide) (by decide) (by decide) (by decide) (by decide)

/-- C8 (amended): insert-then-fetch-by-assigned-id returns the inserted
fields verbatim plus the assigned id and timestamp for SolveRecord and
PaymentRecord; for Account it returns username, email and expiry verbatim,
the password hashed, and `freeAttempts`/`subscriptionStatus` forced to the
defaults 3 and `free` regardless of the inserted values. -/
theorem store_roundtrip (hash : String → String) (st : MemStorage)
    (iu : InsertUser) (ia : InsertAssignmentHistory)
    (ip : InsertSubscriptionPayment) (now : Nat) :
    (MemStorage.createUser hash st iu).2.getUser (MemStorage.createUser hash st iu).1.id
      = some ⟨st.currentUserId, iu.username, iu.email, hash iu.password, 3, "free",
              iu.subscriptionExpiresAt⟩ ∧
    (MemStorage.createAssignment st ia now).2.getAssignment
        (MemStorage.createAssignment st ia now).1.id
      = some ⟨st.currentAssignmentId, ia.userId, ia.fileName, ia.fileUrl,
              ia.processedOutputUrl, now, ia.attemptCount, ia.extractedText,
              ia.solution⟩ ∧
    getEntry (MemStorage.createPayment st ip now).2.paymentsData
        (MemStorage.createPayment st ip now).1.id
      = some ⟨st.currentPaymentId, ip.userId, ip.amount, ip.currency, ip.paymentId,
              ip.orderId, now, ip.status, ip.planType⟩ := by
  refine ⟨?_, ?_, ?_⟩
  · simp [MemStorage.createUser, MemStorage.getUser, getEntry_setEntry_self]
  · simp [MemStorage.createAssignment, MemStorage.getAssignment, getEntry_setEntry_self]
  · simp [MemStorage.createPayment, getEntry_setEntry_self]

/-- C8 is false as stated for Account records: inserting a user record that
carries `freeAttempts = 5` and a plaintext password and fetching it back by
the assigned id returns `freeAttempts = 3` (the store's forced default) and a
hashed password, not the inserted values. -/
theorem store_roundtrip_counterexample :
    (MemStorage.createUser demoHash MemStorage.empty
        ⟨"fay", "fay@example.com", "pw1234567", 5, "free", none⟩).2.getUser 1
      = some ⟨1, "fay", "fay@example.com", "h:pw1234567", 3, "free", none⟩ ∧
    ((5 : Int) ≠ 3) ∧ "h:pw1234567" ≠ "pw1234567" := by
  exact ⟨by decide, by decide, by decide⟩

end Solvem8
